import Mathlib

/-!
Verification of the scripted A2A task executor
(`a2a/test-python-a2a-server/src/agent_executor.py`).

The Python module is a side-effect-free dispatcher apart from enqueuing
events and reading the wall clock.  We embed it shallowly: every behavior
becomes a pure function from the request context (and the wall-clock
timestamp string that `get_current_timestamp()` would have produced) to the
list of events it enqueues, in enqueue order.
-/

namespace A2A

/-- Role of a message author, as in the A2A `Message.role` field. -/
inductive Role where
  | user
  | agent
  deriving DecidableEq, Repr

/-- A text message: a text payload plus the optional `context_id` and
`task_id` it belongs to. -/
structure Message where
  role : Role
  text : String
  context_id : Option String
  task_id : Option String
  deriving DecidableEq, Repr

/-- Task lifecycle state tags used by the executor. -/
inductive TaskState where
  | submitted
  | working
  | completed
  | canceled
  deriving DecidableEq, Repr

/-- A task status: state tag, optional ISO-8601 timestamp string, optional
attached message. -/
structure TaskStatus where
  state : TaskState
  timestamp : Option String
  message : Option Message
  deriving DecidableEq, Repr

/-- A task object, as constructed by the executor. -/
structure Task where
  id : Option String
  context_id : Option String
  status : TaskStatus
  history : List Message
  deriving DecidableEq, Repr

/-- A task status update event: `(task_id, context_id, status, final)`. -/
structure TaskStatusUpdateEvent where
  task_id : Option String
  context_id : Option String
  status : TaskStatus
  final : Bool
  deriving DecidableEq, Repr

/-- An event enqueued on the host-owned event queue: a plain message, a
task object, or a task status update. -/
inductive Event where
  | message (m : Message)
  | task (t : Task)
  | status_update (u : TaskStatusUpdateEvent)
  deriving DecidableEq, Repr

/-- The inbound request context: the inbound message, and the context and
task ids the host resolved for this request. -/
structure RequestContext where
  message : Message
  context_id : Option String
  task_id : Option String
  deriving DecidableEq, Repr

/-- `RequestContext.get_user_input()`: the text of the inbound message. -/
def get_user_input (context : RequestContext) : String :=
  context.message.text

/-- `new_agent_text_message(text, context_id, task_id)` from `a2a.utils`:
an agent-role text message with the given ids (`None` by default). -/
def new_agent_text_message (text : String) (context_id task_id : Option String) : Message :=
  { role := Role.agent, text := text, context_id := context_id, task_id := task_id }

/-- `say_hello`: enqueue one "Hello World" message tagged with the inbound
message ids. -/
def say_hello (context : RequestContext) : List Event :=
  let message := context.message
  [Event.message (new_agent_text_message "Hello World" message.context_id message.task_id)]

/-- `do_task`: enqueue a submitted task, then a `working` update, then a
final `completed` update.  `ts` is the wall-clock timestamp string read at
task construction. -/
def do_task (ts : String) (context : RequestContext) : List Event :=
  let message := context.message
  let task : Task :=
    { id := message.task_id,
      context_id := message.context_id,
      status := { state := TaskState.submitted, timestamp := some ts, message := none },
      history := [message] }
  [Event.task task,
   Event.status_update
     { task_id := task.id,
       context_id := task.context_id,
       status :=
         { state := TaskState.working,
           timestamp := none,
           message := some (new_agent_text_message "Working on task" task.context_id task.id) },
       final := false },
   Event.status_update
     { task_id := task.id,
       context_id := task.context_id,
       status :=
         { state := TaskState.completed,
           timestamp := none,
           message := some (new_agent_text_message "Task completed" task.context_id task.id) },
       final := true }]

/-- `do_cancelable_task`: enqueue only a submitted task. -/
def do_cancelable_task (ts : String) (context : RequestContext) : List Event :=
  let message := context.message
  [Event.task
    { id := message.task_id,
      context_id := message.context_id,
      status := { state := TaskState.submitted, timestamp := some ts, message := none },
      history := [message] }]

/-- `do_long_running_task`: enqueue a submitted task, then for `i` in
`0..3` (after a 200 ms sleep each, irrelevant to the event sequence) a
non-final `working` update with text `"Still working {i}"`. -/
def do_long_running_task (ts : String) (context : RequestContext) : List Event :=
  let message := context.message
  let task : Task :=
    { id := message.task_id,
      context_id := message.context_id,
      status := { state := TaskState.submitted, timestamp := some ts, message := none },
      history := [message] }
  Event.task task ::
    (List.range 4).map (fun i =>
      Event.status_update
        { task_id := task.id,
          context_id := task.context_id,
          status :=
            { state := TaskState.working,
              timestamp := none,
              message := some (new_agent_text_message ("Still working " ++ toString i)
                task.context_id task.id) },
          final := false })

/-- `HelloWorldAgentExecutor.execute`: dispatch on the literal user input
text; unrecognized input gets a fixed apology message with no ids. -/
def execute (ts : String) (context : RequestContext) : List Event :=
  let user_input := get_user_input context
  if user_input = "hello world" then say_hello context
  else if user_input = "do task" then do_task ts context
  else if user_input = "do cancelable task" then do_cancelable_task ts context
  else if user_input = "do long-running task" then do_long_running_task ts context
  else [Event.message (new_agent_text_message "Sorry, I don't understand you" none none)]

/-- `HelloWorldAgentExecutor.cancel`: unconditionally enqueue one final
`canceled` update using the context ids. -/
def cancel (context : RequestContext) : List Event :=
  [Event.status_update
    { task_id := context.task_id,
      context_id := context.context_id,
      status :=
        { state := TaskState.canceled,
          timestamp := none,
          message := some (new_agent_text_message "Task canceled"
            context.context_id context.task_id) },
      final := true }]

/-- Number of events in the list that are status updates with `final = true`. -/
def count_final (events : List Event) : Nat :=
  events.countP (fun e =>
    match e with
    | Event.status_update u => u.final
    | _ => false)

/-- Whether the list contains a `Task` creation event with the given task id. -/
def task_created (events : List Event) (tid : Option String) : Bool :=
  events.any (fun e =>
    match e with
    | Event.task t => t.id == tid
    | _ => false)

/-- Scan helper: every status update in the second list is for a task
created in the first list (the events already seen) or earlier in the scan. -/
def updates_follow_task : List Event → List Event → Bool
  | _, [] => true
  | seen, e :: rest =>
    (match e with
     | Event.status_update u => task_created seen u.task_id
     | _ => true)
    && updates_follow_task (seen ++ [e]) rest

/-- In this event sequence, a `Task` creation event precedes every
`TaskStatusUpdateEvent` carrying that task id. -/
def task_precedes_updates (events : List Event) : Bool :=
  updates_follow_task [] events

/-- The identity-independent shape of an event: kind, message text, state
tag, final flag, and history texts — everything except ids and timestamps. -/
structure EventShape where
  kind : String
  text : Option String
  state : Option TaskState
  final : Option Bool
  history_texts : Option (List String)
  deriving DecidableEq, Repr

/-- Shape of one event (drops ids and timestamps). -/
def event_shape : Event → EventShape
  | Event.message m =>
    { kind := "message", text := some m.text, state := none, final := none,
      history_texts := none }
  | Event.task t =>
    { kind := "task", text := none, state := some t.status.state, final := none,
      history_texts := some (t.history.map Message.text) }
  | Event.status_update u =>
    { kind := "status_update", text := u.status.message.map Message.text,
      state := some u.status.state, final := some u.final, history_texts := none }

/-- A sample context whose inbound message text is "hello world". -/
def ctx_hello : RequestContext :=
  { message := { role := Role.user, text := "hello world",
                 context_id := some "ctx-1", task_id := some "task-1" },
    context_id := some "ctx-1", task_id := some "task-1" }

/-- C8: for input exactly "hello world", execute enqueues exactly one
event — a plain text message with text "Hello World" carrying the inbound
message's context and task ids. -/
theorem execute_hello_world (ts : String) (context : RequestContext)
    (h : get_user_input context = "hello world") :
    execute ts context =
      [Event.message
        { role := Role.agent, text := "Hello World",
          context_id := context.message.context_id,
          task_id := context.message.task_id }] := by
  simp [execute, h, say_hello, new_agent_text_message]

/-- Witness for C8 at a concrete context. -/
theorem execute_hello_world_witness :
    execute "2024-01-01T00:00:00+00:00" ctx_hello =
      [Event.message
        { role := Role.agent, text := "Hello World",
          context_id := some "ctx-1", task_id := some "task-1" }] :=
  execute_hello_world "2024-01-01T00:00:00+00:00" ctx_hello rfl

/-- C3: cancel, for every context, enqueues exactly one event: a final
`canceled` status update carrying a "Task canceled" message, with the
context's task and context ids. -/
theorem cancel_emits_one_canceled (context : RequestContext) :
    cancel context =
      [Event.status_update
        { task_id := context.task_id,
          context_id := context.context_id,
          status :=
            { state := TaskState.canceled,
              timestamp := none,
              message := some
                { role := Role.agent, text := "Task canceled",
                  context_id := context.context_id,
                  task_id := context.task_id } },
          final := true }] :=
  rfl

/-- A sample context whose inbound message text is "do task". -/
def ctx_do_task : RequestContext :=
  { message := { role := Role.user, text := "do task",
                 context_id := some "ctx-2", task_id := some "task-2" },
    context_id := some "ctx-2", task_id := some "task-2" }

/-- C1: for input exactly "do task", execute enqueues exactly three events
in order: a submitted Task with history = [original message], a non-final
`working` update carrying "Working on task", and a final `completed`
update carrying "Task completed", all with the inbound message's ids. -/
theorem execute_do_task (ts : String) (context : RequestContext)
    (h : get_user_input context = "do task") :
    execute ts context =
      [Event.task
        { id := context.message.task_id,
          context_id := context.message.context_id,
          status := { state := TaskState.submitted, timestamp := some ts, message := none },
          history := [context.message] },
       Event.status_update
        { task_id := context.message.task_id,
          context_id := context.message.context_id,
          status :=
            { state := TaskState.working,
              timestamp := none,
              message := some
                { role := Role.agent, text := "Working on task",
                  context_id := context.message.context_id,
                  task_id := context.message.task_id } },
          final := false },
       Event.status_update
        { task_id := context.message.task_id,
          context_id := context.message.context_id,
          status :=
            { state := TaskState.completed,
              timestamp := none,
              message := some
                { role := Role.agent, text := "Task completed",
                  context_id := context.message.context_id,
                  task_id := context.message.task_id } },
          final := true }] := by
  simp [execute, h, do_task, new_agent_text_message]

/-- Witness for C1 at a concrete context. -/
theorem execute_do_task_witness :
    execute "2024-01-01T00:00:00+00:00" ctx_do_task =
      [Event.task
        { id := some "task-2", context_id := some "ctx-2",
          status := { state := TaskState.submitted,
                      timestamp := some "2024-01-01T00:00:00+00:00", message := none },
          history := [ctx_do_task.message] },
       Event.status_update
        { task_id := some "task-2", context_id := some "ctx-2",
          status :=
            { state := TaskState.working, timestamp := none,
              message := some
                { role := Role.agent, text := "Working on task",
                  context_id := some "ctx-2", task_id := some "task-2" } },
          final := false },
       Event.status_update
        { task_id := some "task-2", context_id := some "ctx-2",
          status :=
            { state := TaskState.completed, timestamp := none,
              message := some
                { role := Role.agent, text := "Task completed",
                  context_id := some "ctx-2", task_id := some "task-2" } },
          final := true }] :=
  execute_do_task "2024-01-01T00:00:00+00:00" ctx_do_task rfl

/-- A sample context whose inbound message text is "do long-running task". -/
def ctx_long_running : RequestContext :=
  { message := { role := Role.user, text := "do long-running task",
                 context_id := some "ctx-3", task_id := some "task-3" },
    context_id := some "ctx-3", task_id := some "task-3" }

/-- C2: for input exactly "do long-running task", execute enqueues exactly
five events: a submitted Task with history = [original message], then four
non-final `working` updates with texts "Still working 0".."Still working 3";
no `final = true` event appears on this path. -/
theorem execute_do_long_running_task (ts : String) (context : RequestContext)
    (h : get_user_input context = "do long-running task") :
    execute ts context =
      [Event.task
        { id := context.message.task_id,
          context_id := context.message.context_id,
          status := { state := TaskState.submitted, timestamp := some ts, message := none },
          history := [context.message] },
       Event.status_update
        { task_id := context.message.task_id,
          context_id := context.message.context_id,
          status :=
            { state := TaskState.working, timestamp := none,
              message := some
                { role := Role.agent, text := "Still working 0",
                  context_id := context.message.context_id,
                  task_id := context.message.task_id } },
          final := false },
       Event.status_update
        { task_id := context.message.task_id,
          context_id := context.message.context_id,
          status :=
            { state := TaskState.working, timestamp := none,
              message := some
                { role := Role.agent, text := "Still working 1",
                  context_id := context.message.context_id,
                  task_id := context.message.task_id } },
          final := false },
       Event.status_update
        { task_id := context.message.task_id,
          context_id := context.message.context_id,
          status :=
            { state := TaskState.working, timestamp := none,
              message := some
                { role := Role.agent, text := "Still working 2",
                  context_id := context.message.context_id,
                  task_id := context.message.task_id } },
          final := false },
       Event.status_update
        { task_id := context.message.task_id,
          context_id := context.message.context_id,
          status :=
            { state := TaskState.working, timestamp := none,
              message := some
                { role := Role.agent, text := "Still working 3",
                  context_id := context.message.context_id,
                  task_id := context.message.task_id } },
          final := false }] ∧
    count_final (execute ts context) = 0 := by
  have hexec : execute ts context = do_long_running_task ts context := by
    simp [execute, h]
  rw [hexec]
  constructor
  · simp [do_long_running_task, new_agent_text_message, List.range_succ]
    decide
  · simp [do_long_running_task, count_final, List.range_succ]

/-- Witness for C2 at a concrete context: the five concrete events and a
zero final-update count. -/
theorem execute_do_long_running_task_witness :
    execute "2024-01-01T00:00:00+00:00" ctx_long_running =
      [Event.task
        { id := some "task-3", context_id := some "ctx-3",
          status := { state := TaskState.submitted,
                      timestamp := some "2024-01-01T00:00:00+00:00", message := none },
          history := [ctx_long_running.message] },
       Event.status_update
        { task_id := some "task-3", context_id := some "ctx-3",
          status :=
            { state := TaskState.working, timestamp := none,
              message := some
                { role := Role.agent, text := "Still working 0",
                  context_id := some "ctx-3", task_id := some "task-3" } },
          final := false },
       Event.status_update
        { task_id := some "task-3", context_id := some "ctx-3",
          status :=
            { state := TaskState.working, timestamp := none,
              message := some
                { role := Role.agent, text := "Still working 1",
                  context_id := some "ctx-3", task_id := some "task-3" } },
          final := false },
       Event.status_update
        { task_id := some "task-3", context_id := some "ctx-3",
          status :=
            { state := TaskState.working, timestamp := none,
              message := some
                { role := Role.agent, text := "Still working 2",
                  context_id := some "ctx-3", task_id := some "task-3" } },
          final := false },
       Event.status_update
        { task_id := some "task-3", context_id := some "ctx-3",
          status :=
            { state := TaskState.working, timestamp := none,
              message := some
                { role := Role.agent, text := "Still working 3",
                  context_id := some "ctx-3", task_id := some "task-3" } },
          final := false }] ∧
    count_final (execute "2024-01-01T00:00:00+00:00" ctx_long_running) = 0 :=
  execute_do_long_running_task "2024-01-01T00:00:00+00:00" ctx_long_running rfl

/-- A sample context whose inbound message text is "do cancelable task". -/
def ctx_cancelable : RequestContext :=
  { message := { role := Role.user, text := "do cancelable task",
                 context_id := some "ctx-4", task_id := some "task-4" },
    context_id := some "ctx-4", task_id := some "task-4" }

/-- C9: for input exactly "do cancelable task", execute enqueues exactly
one event: a submitted Task whose history is the single original message,
and no status update. -/
theorem execute_do_cancelable_task (ts : String) (context : RequestContext)
    (h : get_user_input context = "do cancelable task") :
    execute ts context =
      [Event.task
        { id := context.message.task_id,
          context_id := context.message.context_id,
          status := { state := TaskState.submitted, timestamp := some ts, message := none },
          history := [context.message] }] := by
  simp [execute, h, do_cancelable_task]

/-- Witness for C9 at a concrete context. -/
theorem execute_do_cancelable_task_witness :
    execute "2024-01-01T00:00:00+00:00" ctx_cancelable =
      [Event.task
        { id := some "task-4", context_id := some "ctx-4",
          status := { state := TaskState.submitted,
                      timestamp := some "2024-01-01T00:00:00+00:00", message := none },
          history := [ctx_cancelable.message] }] :=
  execute_do_cancelable_task "2024-01-01T00:00:00+00:00" ctx_cancelable rfl

/-- A sample context with unrecognized inbound text. -/
def ctx_unknown : RequestContext :=
  { message := { role := Role.user, text := "Hello World",
                 context_id := some "ctx-5", task_id := some "task-5" },
    context_id := some "ctx-5", task_id := some "task-5" }

/-- C4: dispatch is an exact, case-sensitive match.  For every input that
is not character-for-character one of the four recognized strings, execute
enqueues exactly one event: a plain text message "Sorry, I don't understand
you" with no context or task id. -/
theorem execute_unrecognized (ts : String) (context : RequestContext)
    (h1 : get_user_input context ≠ "hello world")
    (h2 : get_user_input context ≠ "do task")
    (h3 : get_user_input context ≠ "do cancelable task")
    (h4 : get_user_input context ≠ "do long-running task") :
    execute ts context =
      [Event.message
        { role := Role.agent, text := "Sorry, I don't understand you",
          context_id := none, task_id := none }] := by
  simp [execute, h1, h2, h3, h4, new_agent_text_message]

/-- Witness for C4 at the case-variant input "Hello World". -/
theorem execute_unrecognized_witness :
    execute "2024-01-01T00:00:00+00:00" ctx_unknown =
      [Event.message
        { role := Role.agent, text := "Sorry, I don't understand you",
          context_id := none, task_id := none }] :=
  execute_unrecognized "2024-01-01T00:00:00+00:00" ctx_unknown
    (by decide) (by decide) (by decide) (by decide)

/-- Dispatch case analysis: every run of execute is one of the five
scripted behaviors. -/
lemma execute_cases (ts : String) (context : RequestContext) :
    execute ts context = say_hello context ∨
    execute ts context = do_task ts context ∨
    execute ts context = do_cancelable_task ts context ∨
    execute ts context = do_long_running_task ts context ∨
    execute ts context =
      [Event.message (new_agent_text_message "Sorry, I don't understand you" none none)] := by
  by_cases h1 : get_user_input context = "hello world"
  · exact Or.inl (by simp [execute, h1])
  by_cases h2 : get_user_input context = "do task"
  · exact Or.inr (Or.inl (by simp [execute, h1, h2]))
  by_cases h3 : get_user_input context = "do cancelable task"
  · exact Or.inr (Or.inr (Or.inl (by simp [execute, h1, h2, h3])))
  by_cases h4 : get_user_input context = "do long-running task"
  · exact Or.inr (Or.inr (Or.inr (Or.inl (by simp [execute, h1, h2, h3, h4]))))
  · exact Or.inr (Or.inr (Or.inr (Or.inr (by simp [execute, h1, h2, h3, h4]))))

/-- C5: in every single invocation, at most one `final = true` status
update is emitted: execute emits at most one (exactly one on the "do task"
path, none elsewhere) and cancel emits exactly one. -/
theorem at_most_one_final_per_invocation (ts : String) (context : RequestContext) :
    count_final (execute ts context) ≤ 1 ∧ count_final (cancel context) = 1 := by
  refine ⟨?_, rfl⟩
  rcases execute_cases ts context with h | h | h | h | h <;> rw [h]
  · simp [say_hello, count_final]
  · simp [do_task, count_final]
  · simp [do_cancelable_task, count_final]
  · simp [do_long_running_task, count_final, List.range_succ]
  · simp [count_final]

/-- A context used only through cancel, with no prior execute run. -/
def ctx_cancel_only : RequestContext :=
  { message := { role := Role.user, text := "unrelated",
                 context_id := some "ctx-9", task_id := some "task-9" },
    context_id := some "ctx-9", task_id := some "task-9" }

/-- C6 fails as stated: cancel emits a `TaskStatusUpdateEvent` for task
"task-9" although the sequence it emits contains no `Task` creation event —
cancel never checks that the task exists, so a cancel-only run for a task
violates the creation-precedes-update ordering. -/
theorem cancel_update_without_task_creation :
    task_precedes_updates (cancel ctx_cancel_only) = false :=
  rfl

/-- C6 (amended): within every single execute invocation, a `Task`
creation event precedes any `TaskStatusUpdateEvent` carrying that task's
id; cancel, by contrast, may emit a status update with no prior `Task`
event. -/
theorem execute_task_precedes_updates (ts : String) (context : RequestContext) :
    task_precedes_updates (execute ts context) = true := by
  rcases execute_cases ts context with h | h | h | h | h <;> rw [h]
  · simp [say_hello, task_precedes_updates, updates_follow_task]
  · simp [do_task, task_precedes_updates, updates_follow_task, task_created]
  · simp [do_cancelable_task, task_precedes_updates, updates_follow_task]
  · simp [do_long_running_task, task_precedes_updates, updates_follow_task,
          task_created, List.range_succ]
  · simp [task_precedes_updates, updates_follow_task]

/-- C10: execute always enqueues at least one event, whatever the input
text: every dispatch branch, the fallback included, emits something. -/
theorem execute_nonempty (ts : String) (context : RequestContext) :
    execute ts context ≠ [] := by
  rcases execute_cases ts context with h | h | h | h | h <;> rw [h]
  · simp [say_hello]
  · simp [do_task]
  · simp [do_cancelable_task]
  · simp [do_long_running_task]
  · simp

/-- C7: execute is deterministic in event shape.  Two invocations whose
inbound texts agree produce event lists with identical shapes (kinds,
message texts, states, final flags, history texts) — only ids and
timestamps can differ. -/
theorem execute_shape_deterministic (ts1 ts2 : String) (c1 c2 : RequestContext)
    (h : get_user_input c1 = get_user_input c2) :
    (execute ts1 c1).map event_shape = (execute ts2 c2).map event_shape := by
  by_cases h1 : get_user_input c1 = "hello world"
  · simp [execute, h1, h ▸ h1, say_hello, event_shape, new_agent_text_message]
  by_cases h2 : get_user_input c1 = "do task"
  · have h2b : get_user_input c2 = "do task" := h ▸ h2
    simp only [execute, h1, h ▸ h1, h2, h2b, if_false, if_true]
    simp [do_task, event_shape, new_agent_text_message, get_user_input] at h ⊢
    simp [h]
  by_cases h3 : get_user_input c1 = "do cancelable task"
  · have h3b : get_user_input c2 = "do cancelable task" := h ▸ h3
    simp only [execute, h1, h ▸ h1, h2, h ▸ h2, h3, h3b, if_false, if_true]
    simp [do_cancelable_task, event_shape, get_user_input] at h ⊢
    simp [h]
  by_cases h4 : get_user_input c1 = "do long-running task"
  · have h4b : get_user_input c2 = "do long-running task" := h ▸ h4
    simp only [execute, h1, h ▸ h1, h2, h ▸ h2, h3, h ▸ h3, h4, h4b, if_false, if_true]
    simp [do_long_running_task, event_shape, new_agent_text_message,
          get_user_input, List.range_succ] at h ⊢
    simp [h]
  · simp [execute, h1, h ▸ h1, h2, h ▸ h2, h3, h ▸ h3, h4, h ▸ h4,
          event_shape, new_agent_text_message]

/-- Witness for C7: two contexts with the same "do task" text but
different ids and timestamps give shape-equal event lists. -/
theorem execute_shape_deterministic_witness :
    (execute "2024-01-01T00:00:00+00:00" ctx_do_task).map event_shape =
      (execute "2025-06-30T12:34:56+00:00"
        { message := { role := Role.user, text := "do task",
                       context_id := some "other-ctx", task_id := some "other-task" },
          context_id := some "other-ctx", task_id := some "other-task" }).map event_shape :=
  execute_shape_deterministic "2024-01-01T00:00:00+00:00" "2025-06-30T12:34:56+00:00"
    ctx_do_task
    { message := { role := Role.user, text := "do task",
                   context_id := some "other-ctx", task_id := some "other-task" },
      context_id := some "other-ctx", task_id := some "other-task" }
    rfl

end A2A
